import Mathlib

/-!
Verification of the paginated device-listing routine of
`JuniperMist/list_devices.py`: the fetch loop `get_all_devices` and the
grouping/printing routine `display_devices`, shallowly embedded over a
model of parsed JSON values and HTTP responses.
-/

/-- Parsed JSON values, as produced by `response.json()` in the source.
Mirrors the Python value universe the script dispatches on:
`list` (`arr`), `dict` (`obj`, an ordered association list, which is how
CPython dicts behave), strings, numbers, booleans and `None`. -/
inductive Json where
  | null : Json
  | bool (b : Bool) : Json
  | num (n : Int) : Json
  | str (s : String) : Json
  | arr (elems : List Json) : Json
  | obj (fields : List (String × Json)) : Json

mutual

def Json.decEq : (a b : Json) → Decidable (a = b)
  | .null, .null => .isTrue rfl
  | .bool a, .bool b =>
    if h : a = b then .isTrue (by rw [h]) else .isFalse fun hc => h (Json.bool.inj hc)
  | .num a, .num b =>
    if h : a = b then .isTrue (by rw [h]) else .isFalse fun hc => h (Json.num.inj hc)
  | .str a, .str b =>
    if h : a = b then .isTrue (by rw [h]) else .isFalse fun hc => h (Json.str.inj hc)
  | .arr xs, .arr ys =>
    match Json.decEqList xs ys with
    | .isTrue h => .isTrue (by rw [h])
    | .isFalse h => .isFalse fun hc => h (Json.arr.inj hc)
  | .obj xs, .obj ys =>
    match Json.decEqObj xs ys with
    | .isTrue h => .isTrue (by rw [h])
    | .isFalse h => .isFalse fun hc => h (Json.obj.inj hc)
  | .null, .bool _ => .isFalse nofun
  | .null, .num _ => .isFalse nofun
  | .null, .str _ => .isFalse nofun
  | .null, .arr _ => .isFalse nofun
  | .null, .obj _ => .isFalse nofun
  | .bool _, .null => .isFalse nofun
  | .bool _, .num _ => .isFalse nofun
  | .bool _, .str _ => .isFalse nofun
  | .bool _, .arr _ => .isFalse nofun
  | .bool _, .obj _ => .isFalse nofun
  | .num _, .null => .isFalse nofun
  | .num _, .bool _ => .isFalse nofun
  | .num _, .str _ => .isFalse nofun
  | .num _, .arr _ => .isFalse nofun
  | .num _, .obj _ => .isFalse nofun
  | .str _, .null => .isFalse nofun
  | .str _, .bool _ => .isFalse nofun
  | .str _, .num _ => .isFalse nofun
  | .str _, .arr _ => .isFalse nofun
  | .str _, .obj _ => .isFalse nofun
  | .arr _, .null => .isFalse nofun
  | .arr _, .bool _ => .isFalse nofun
  | .arr _, .num _ => .isFalse nofun
  | .arr _, .str _ => .isFalse nofun
  | .arr _, .obj _ => .isFalse nofun
  | .obj _, .null => .isFalse nofun
  | .obj _, .bool _ => .isFalse nofun
  | .obj _, .num _ => .isFalse nofun
  | .obj _, .str _ => .isFalse nofun
  | .obj _, .arr _ => .isFalse nofun

def Json.decEqList : (xs ys : List Json) → Decidable (xs = ys)
  | [], [] => .isTrue rfl
  | [], _ :: _ => .isFalse nofun
  | _ :: _, [] => .isFalse nofun
  | x :: xs, y :: ys =>
    match Json.decEq x y, Json.decEqList xs ys with
    | .isTrue h1, .isTrue h2 => .isTrue (by rw [h1, h2])
    | .isFalse h1, _ => .isFalse fun hc => h1 (List.cons.inj hc).1
    | _, .isFalse h2 => .isFalse fun hc => h2 (List.cons.inj hc).2

def Json.decEqObj : (xs ys : List (String × Json)) → Decidable (xs = ys)
  | [], [] => .isTrue rfl
  | [], _ :: _ => .isFalse nofun
  | _ :: _, [] => .isFalse nofun
  | (k1, v1) :: xs, (k2, v2) :: ys =>
    match String.decEq k1 k2, Json.decEq v1 v2, Json.decEqObj xs ys with
    | .isTrue hk, .isTrue hv, .isTrue ht => .isTrue (by rw [hk, hv, ht])
    | .isFalse hk, _, _ =>
      .isFalse (by intro hc; injection hc with h1 h2; exact hk (congrArg Prod.fst h1))
    | _, .isFalse hv, _ =>
      .isFalse (by intro hc; injection hc with h1 h2; exact hv (congrArg Prod.snd h1))
    | _, _, .isFalse ht => .isFalse (by intro hc; injection hc with h1 h2; exact ht h2)

end

instance : DecidableEq Json := Json.decEq

/-- Python dict key lookup on the ordered association list backing an
`obj` (`batch['data']` and friends); `none` when the key is absent,
modelling `key in batch` being false. -/
def Json.lookup : List (String × Json) → String → Option Json
  | [], _ => none
  | (k', v) :: rest, k => if k' = k then some v else Json.lookup rest k

/-- Python substring membership on char lists, the semantics of
`needle in haystack` for strings. -/
def hasSubList (needle : List Char) : List Char → Bool
  | [] => needle.isEmpty
  | c :: rest => needle.isPrefixOf (c :: rest) || hasSubList needle rest

/-- Substring test `needle in hay` on strings. -/
def strContains (hay needle : String) : Bool :=
  hasSubList needle.data hay.data

/-- Iterating a Python value, as `devices.extend(x)` does: a list yields
its elements, a string yields its characters (each a one-character
string), a dict yields its keys; any other value raises `TypeError`
(`none`). -/
def pyElems : Json → Option (List Json)
  | .arr xs => some xs
  | .str s => some (s.data.map fun c => Json.str (String.mk [c]))
  | .obj kvs => some (kvs.map fun kv => Json.str kv.1)
  | _ => none

/-- Outcome of classifying one page body (lines 37-50 of
`list_devices.py`): `extended recs` means `devices` grows by `recs` and
the loop proceeds to the `Link` header; `breakLoop` is the
`print(...); break` branch for a body that is neither a list nor a
dict; `typeError` is an uncaught `TypeError` from `devices.extend` on a
non-iterable `data`/`results` value. -/
inductive BodyResult where
  | extended (recs : List Json) : BodyResult
  | breakLoop : BodyResult
  | typeError : BodyResult
deriving DecidableEq

/-- Classification of a parsed page body, transcribing lines 37-50:
a list extends `devices` with its elements; a dict with key `data`
(else `results`) extends with that value's elements; a dict with
neither key is appended whole as a single record; anything else prints
a message and breaks the loop. -/
def processBody (batch : Json) : BodyResult :=
  match batch with
  | .arr xs => .extended xs
  | .obj kvs =>
    match Json.lookup kvs "data" with
    | some v =>
      match pyElems v with
      | some es => .extended es
      | none => .typeError
    | none =>
      match Json.lookup kvs "results" with
      | some v =>
        match pyElems v with
        | some es => .extended es
        | none => .typeError
      | none => .extended [Json.obj kvs]
  | _ => .breakLoop

/-- The pagination relation marker searched for in the `Link` header. -/
def relNext : String := "rel=\"next\""

/-- Splitting a char list at every occurrence of a separator char,
keeping empty pieces; the result is never the empty list. -/
def splitChar (sep : Char) : List Char → List (List Char)
  | [] => [[]]
  | c :: rest =>
    let r := splitChar sep rest
    if c = sep then [] :: r
    else
      match r with
      | [] => [[c]]
      | p :: ps => (c :: p) :: ps

/-- Python `s.split(sep)` for a one-character separator: the list of
pieces is never empty and keeps empty pieces. -/
def pySplit (s : String) (sep : Char) : List String :=
  (splitChar sep s.data).map String.mk

/-- The expression `link.split('<')[1].split('>')[0]` of line 58:
`none` models the `IndexError` raised when the entry has no `<`. -/
def extractUrl (link : String) : Option String :=
  match pySplit link '<' with
  | _ :: second :: _ => some ((pySplit second '>').headD "")
  | _ => none

/-- Outcome of the `Link`-header inspection (lines 53-63): a next URL,
no next URL (`url = None`), or an uncaught `IndexError`. -/
inductive LinkResult where
  | nextUrl (u : String) : LinkResult
  | noNext : LinkResult
  | indexError : LinkResult
deriving DecidableEq

/-- The `for link in link_header.split(','): ... else: url = None` scan
of lines 56-61: the first comma-separated piece containing the marker
has its URL extracted; if no piece matches, the for-else sets
`url = None`. -/
def scanLinks : List String → LinkResult
  | [] => .noNext
  | l :: rest =>
    if strContains l relNext then
      match extractUrl l with
      | some u => .nextUrl u
      | none => .indexError
    else scanLinks rest

/-- The whole `Link`-header step of lines 52-63: when the header lacks
the marker entirely, `url = None`; otherwise scan the comma-split
pieces. -/
def linkStep (header : String) : LinkResult :=
  if strContains header relNext then scanLinks (pySplit header ',')
  else .noNext

/-- One HTTP response as the loop observes it: `ok` is true when
`requests.get` and `response.raise_for_status()` both succeed (a 2xx
status; `false` covers a non-2xx status and any network-level
`RequestException`), `body` is the parsed JSON, and `link` is
`response.headers.get('Link', '')` (the empty string when the header is
absent). -/
structure Response where
  ok : Bool
  body : Json
  link : String

/-- Result of the fetch routine: `ok devices requests` is a normal
return carrying the accumulated records and the number of GET requests
issued; `exit1 requests` is `sys.exit(1)` from the
`RequestException` handler; `raised requests` is an uncaught exception
(`IndexError` or `TypeError`) escaping the routine; `diverge` means the
fuel bound was exhausted (the Python loop would still be running). -/
inductive FetchResult where
  | ok (devices : List Json) (requests : Nat) : FetchResult
  | exit1 (requests : Nat) : FetchResult
  | raised (requests : Nat) : FetchResult
  | diverge : FetchResult
deriving DecidableEq

/-- The `while url:` loop of lines 28-67, with the server abstracted as
a function from URL to `Response` and an explicit fuel bound standing
in for the unbounded Python loop. The URL is a string, with `""`
standing for both Python's empty string and `None` (both falsy). -/
def get_all_devices_loop (server : String → Response) :
    Nat → String → List Json → Nat → FetchResult
  | 0, _, _, _ => .diverge
  | fuel + 1, url, devices, reqs =>
    if url = "" then .ok devices reqs
    else
      let resp := server url
      if resp.ok = false then .exit1 (reqs + 1)
      else
        match processBody resp.body with
        | .typeError => .raised (reqs + 1)
        | .breakLoop => .ok devices (reqs + 1)
        | .extended recs =>
          match linkStep resp.link with
          | .indexError => .raised (reqs + 1)
          | .noNext => .ok (devices ++ recs) (reqs + 1)
          | .nextUrl u => get_all_devices_loop server fuel u (devices ++ recs) (reqs + 1)

/-- The initial device-listing endpoint built on line 26. -/
def orgDevicesUrl (org_id : String) : String :=
  "https://api.mist.com/api/v1/orgs/" ++ org_id ++ "/devices"

/-- `get_all_devices(org_id, headers)`: start from the organization's
device endpoint with an empty collection and zero requests issued. -/
def get_all_devices (server : String → Response) (org_id : String) (fuel : Nat) : FetchResult :=
  get_all_devices_loop server fuel (orgDevicesUrl org_id) [] 0

/-- Group key of one mapping record (line 94):
`device.get('type', 'Unknown')`. -/
def typeKey (kvs : List (String × Json)) : Json :=
  (Json.lookup kvs "type").getD (Json.str "Unknown")

/-- The six values interpolated into the two summary lines of one
record (lines 104-109): `device.get(field, default)` for each field.
The console padding of the f-strings is not modelled, only the values
substituted into them. -/
structure DeviceLine where
  name : Json
  model : Json
  mac : Json
  serial : Json
  status : Json
  site_id : Json
deriving DecidableEq

/-- Field extraction for one record, transcribing lines 104-109. -/
def deviceLine (kvs : List (String × Json)) : DeviceLine :=
  { name := (Json.lookup kvs "name").getD (Json.str "Unnamed")
    model := (Json.lookup kvs "model").getD (Json.str "N/A")
    mac := (Json.lookup kvs "mac").getD (Json.str "N/A")
    serial := (Json.lookup kvs "serial").getD (Json.str "N/A")
    status := (Json.lookup kvs "status").getD (Json.str "N/A")
    site_id := (Json.lookup kvs "site_id").getD (Json.str "N/A") }

/-- The `device_types` dict: insertion-ordered association from a group
key to the list of member records (each kept as its field list). -/
abbrev Groups := List (Json × List (List (String × Json)))

/-- Lines 95-97: `device_types.setdefault`-style update. Appending a
record to the (unique) entry for its key, or creating the entry at the
end, exactly as inserting into a CPython dict of lists. -/
def addToGroup (groups : Groups) (k : Json) (d : List (String × Json)) : Groups :=
  match groups with
  | [] => [(k, [d])]
  | (k', ds) :: rest =>
    if k' = k then (k', ds ++ [d]) :: rest else (k', ds) :: addToGroup rest k d

/-- Dict read `device_types[k]`, with `[]` for a missing key. -/
def getGroup (groups : Groups) (k : Json) : List (List (String × Json)) :=
  match groups with
  | [] => []
  | (k', ds) :: rest => if k' = k then ds else getGroup rest k

/-- The grouping loop of lines 88-97: mapping records are grouped by
their `type` key; every non-mapping element is warned about (collected
in order) and excluded from the groups. -/
def scanDevices : List Json → Groups → List Json → Groups × List Json
  | [], gs, ws => (gs, ws)
  | d :: rest, gs, ws =>
    match d with
    | .obj kvs => scanDevices rest (addToGroup gs (typeKey kvs) kvs) ws
    | other => scanDevices rest gs (ws ++ [other])

/-- `device_type.upper()` of line 100, for ASCII strings; `none` models
the `AttributeError` a non-string group key would raise. -/
def pyUpper : Json → Option String
  | .str s => some (String.mk (s.data.map Char.toUpper))
  | _ => none

/-- Observable outcome of `display_devices`: whether the empty-input
message was printed, the reported total, the non-mapping elements
warned about (in order), the grouping, and per group the upper-cased
header name, the member count of the header, and the summary values of
each member in order (lines 99-113). -/
structure DisplayResult where
  noDevices : Bool
  total : Nat
  warned : List Json
  groups : Groups
  rendered : List (Option String × Nat × List DeviceLine)
deriving DecidableEq

/-- `display_devices(devices)`, lines 71-113. -/
def display_devices (devices : List Json) : DisplayResult :=
  match devices with
  | [] => ⟨true, 0, [], [], []⟩
  | _ =>
    let gw := scanDevices devices [] []
    ⟨false, devices.length, gw.2, gw.1,
      gw.1.map fun g => (pyUpper g.1, g.2.length, g.2.map deviceLine)⟩

/-- Spec-side description (for comparison with the code's grouping):
the distinct `type` keys of the mapping elements, each at its first
occurrence, scanning front-to-back with `seen` already listed. -/
def specKeysAfter (seen : List Json) : List Json → List Json
  | [] => seen
  | d :: rest =>
    match d with
    | .obj kvs =>
      specKeysAfter (if typeKey kvs ∈ seen then seen else seen ++ [typeKey kvs]) rest
    | _ => specKeysAfter seen rest

/-- Spec-side description: first-seen insertion order of type keys. -/
def specFirstSeenTypes (devices : List Json) : List Json :=
  specKeysAfter [] devices

/-- Spec-side description: the mapping elements whose type key is `k`,
in original relative order. -/
def specMembersOfType (devices : List Json) (k : Json) : List (List (String × Json)) :=
  devices.filterMap fun d =>
    match d with
    | .obj kvs => if typeKey kvs = k then some kvs else none
    | _ => none

/-- Whether a Python value is a dict (`isinstance(x, dict)`). -/
def Json.isObj : Json → Bool
  | .obj _ => true
  | _ => false

/-- Whether a Python value is a list (`isinstance(x, list)`). -/
def Json.isArr : Json → Bool
  | .arr _ => true
  | _ => false

/-- A server answering every URL with an empty page whose `Link` header
points back to the fixed URL `"a"`: from the second request on, the
loop revisits `"a"` forever. -/
def cycServer : String → Response := fun _ => ⟨true, Json.arr [], "<a>; rel=\"next\""⟩

/-- A two-page server: the organization endpoint serves two records and
links to `"p2"`, which serves one record and no further link. -/
def twoPageServer : String → Response := fun u =>
  if u = "p2" then ⟨true, Json.arr [Json.num 3], ""⟩
  else ⟨true, Json.arr [Json.num 1, Json.num 2], "<p2>; rel=\"next\""⟩

/-- A server answering every URL with one record and no `Link` header. -/
def onePageServer : String → Response := fun _ => ⟨true, Json.arr [Json.num 9], ""⟩

/-- A server whose `Link` header holds the `rel="next"` marker but no
URL delimited by `<` and `>`. -/
def noAngleServer : String → Response := fun _ => ⟨true, Json.arr [], "rel=\"next\""⟩

/-- A server whose first page body is a bare number (neither list nor
dict) with a `Link` header to `"p2"`, where one record awaits. -/
def badPageServer : String → Response := fun u =>
  if u = "p2" then ⟨true, Json.arr [Json.num 7], ""⟩
  else ⟨true, Json.num 5, "<p2>; rel=\"next\""⟩

/-- A server failing every request (non-2xx status). -/
def failServer : String → Response := fun _ => ⟨false, Json.null, ""⟩

/-- Device collection with types `ap`, `ap`, `switch` in that order. -/
def apSwitchDevices : List Json :=
  [Json.obj [("type", Json.str "ap"), ("name", Json.str "a1")],
   Json.obj [("type", Json.str "ap"), ("name", Json.str "a2")],
   Json.obj [("type", Json.str "switch"), ("name", Json.str "s1")]]

/-- Device collection holding one mapping element and one stray
string. -/
def mixedDevices : List Json :=
  [Json.obj [("type", Json.str "ap")], Json.str "boom"]

/-- A record carrying every field the display routine reads. -/
def fullRecord : List (String × Json) :=
  [("type", Json.str "ap"), ("name", Json.str "dev1"), ("model", Json.str "m"),
   ("mac", Json.str "00:11"), ("serial", Json.str "s9"), ("status", Json.str "up"),
   ("site_id", Json.str "site7")]

/-- One iteration when the request fails: the handler calls
`sys.exit(1)` after the single failed request. -/
theorem loop_fail (server : String → Response) (fuel : Nat) (url : String)
    (devices : List Json) (reqs : Nat) (hne : url ≠ "")
    (hfail : (server url).ok = false) :
    get_all_devices_loop server (fuel + 1) url devices reqs = .exit1 (reqs + 1) := by
  simp [get_all_devices_loop, hne, hfail]

/-- One iteration on a body that is neither list nor dict: print and
`break`, returning the devices accumulated so far. -/
theorem loop_break (server : String → Response) (fuel : Nat) (url : String)
    (devices : List Json) (reqs : Nat) (hne : url ≠ "")
    (hok : (server url).ok = true)
    (hbody : processBody (server url).body = .breakLoop) :
    get_all_devices_loop server (fuel + 1) url devices reqs = .ok devices (reqs + 1) := by
  simp [get_all_devices_loop, hne, hok, hbody]

/-- One iteration whose `devices.extend` raises `TypeError`. -/
theorem loop_typeErr (server : String → Response) (fuel : Nat) (url : String)
    (devices : List Json) (reqs : Nat) (hne : url ≠ "")
    (hok : (server url).ok = true)
    (hbody : processBody (server url).body = .typeError) :
    get_all_devices_loop server (fuel + 1) url devices reqs = .raised (reqs + 1) := by
  simp [get_all_devices_loop, hne, hok, hbody]

/-- One successful iteration with no next link: extend and return. -/
theorem loop_ext_noNext (server : String → Response) (fuel : Nat) (url : String)
    (devices : List Json) (reqs : Nat) (recs : List Json) (hne : url ≠ "")
    (hok : (server url).ok = true)
    (hbody : processBody (server url).body = .extended recs)
    (hlink : linkStep (server url).link = .noNext) :
    get_all_devices_loop server (fuel + 1) url devices reqs = .ok (devices ++ recs) (reqs + 1) := by
  simp [get_all_devices_loop, hne, hok, hbody, hlink]

/-- One iteration whose `Link` inspection raises `IndexError`. -/
theorem loop_ext_idxErr (server : String → Response) (fuel : Nat) (url : String)
    (devices : List Json) (reqs : Nat) (recs : List Json) (hne : url ≠ "")
    (hok : (server url).ok = true)
    (hbody : processBody (server url).body = .extended recs)
    (hlink : linkStep (server url).link = .indexError) :
    get_all_devices_loop server (fuel + 1) url devices reqs = .raised (reqs + 1) := by
  simp [get_all_devices_loop, hne, hok, hbody, hlink]

/-- One successful iteration that continues to the next URL. -/
theorem loop_ext_next (server : String → Response) (fuel : Nat) (url : String)
    (devices : List Json) (reqs : Nat) (recs : List Json) (u : String) (hne : url ≠ "")
    (hok : (server url).ok = true)
    (hbody : processBody (server url).body = .extended recs)
    (hlink : linkStep (server url).link = .nextUrl u) :
    get_all_devices_loop server (fuel + 1) url devices reqs =
      get_all_devices_loop server fuel u (devices ++ recs) (reqs + 1) := by
  simp [get_all_devices_loop, hne, hok, hbody, hlink]

/-- A well-formed paginated chain rooted at `url`: each page is served
at a non-empty URL with a 2xx status, yields its records, and its
`Link` header resolves (through the code's own header inspection) to
the next page's URL; the last page's header yields no next URL. -/
inductive Chain (server : String → Response) : String → List (List Json) → Prop where
  | last (url : String) (recs : List Json)
      (hne : url ≠ "")
      (hok : (server url).ok = true)
      (hbody : processBody (server url).body = .extended recs)
      (hlink : linkStep (server url).link = .noNext) :
      Chain server url [recs]
  | cons (url next : String) (recs : List Json) (rest : List (List Json))
      (hne : url ≠ "")
      (hok : (server url).ok = true)
      (hbody : processBody (server url).body = .extended recs)
      (hlink : linkStep (server url).link = .nextUrl next)
      (hnext : Chain server next rest) :
      Chain server url (recs :: rest)

/-- Running the loop over a `Chain` of K pages issues exactly K
requests and appends the concatenation of all pages' records, in page
order, to the collection. -/
theorem chain_loop_ok (server : String → Response) {url : String}
    {pages : List (List Json)} (h : Chain server url pages) :
    ∀ (fuel : Nat), pages.length < fuel →
    ∀ (devices : List Json) (reqs : Nat),
      get_all_devices_loop server fuel url devices reqs =
        FetchResult.ok (devices ++ pages.flatten) (reqs + pages.length) := by
  induction h with
  | last url recs hne hok hbody hlink =>
    intro fuel hfuel devices reqs
    cases fuel with
    | zero => omega
    | succ f =>
      rw [loop_ext_noNext server f url devices reqs recs hne hok hbody hlink]
      simp
  | cons url next recs rest hne hok hbody hlink hnext ih =>
    intro fuel hfuel devices reqs
    cases fuel with
    | zero => omega
    | succ f =>
      have hflen : rest.length < f := by simp at hfuel; omega
      rw [loop_ext_next server f url devices reqs recs next hne hok hbody hlink]
      rw [ih f hflen]
      simp only [List.flatten_cons, FetchResult.ok.injEq]
      constructor
      · simp [List.append_assoc]
      · simp; omega

/-- Against `cycServer` the loop exhausts any fuel bound: the Python
loop never terminates. -/
theorem cycServer_diverges : ∀ (fuel : Nat) (url : String), url ≠ "" →
    ∀ (devices : List Json) (reqs : Nat),
      get_all_devices_loop cycServer fuel url devices reqs = .diverge := by
  intro fuel
  induction fuel with
  | zero => intro url hne devices reqs; rfl
  | succ f ih =>
    intro url hne devices reqs
    rw [loop_ext_next cycServer f url devices reqs [] "a" hne rfl rfl
      (by show linkStep "<a>; rel=\"next\"" = LinkResult.nextUrl "a"; decide)]
    exact ih "a" (by decide) (devices ++ []) (reqs + 1)

/-- The initial endpoint URL is never the empty string, so the
`while url:` loop always takes at least one iteration. -/
theorem orgDevicesUrl_ne (org_id : String) : orgDevicesUrl org_id ≠ "" := by
  intro h
  have h2 := congrArg String.data h
  simp only [orgDevicesUrl, String.data_append] at h2
  simp at h2

/-- `twoPageServer` serves a well-formed two-page chain from the
organization endpoint. -/
theorem twoPageChain : Chain twoPageServer (orgDevicesUrl "o")
    [[Json.num 1, Json.num 2], [Json.num 3]] := by
  refine Chain.cons _ "p2" _ _ (orgDevicesUrl_ne "o") (by decide) (by decide) (by decide) ?_
  exact Chain.last _ _ (by decide) (by decide) (by decide) (by decide)

/-- Inserting into the `device_types` dict keeps the key order and adds
the key at the end exactly when it is new. -/
theorem keys_addToGroup (g : Groups) (k : Json) (v : List (String × Json)) :
    (addToGroup g k v).map Prod.fst =
      if k ∈ g.map Prod.fst then g.map Prod.fst else g.map Prod.fst ++ [k] := by
  induction g with
  | nil => simp [addToGroup]
  | cons hd rest ih =>
    obtain ⟨k1, ds⟩ := hd
    by_cases hk : k1 = k
    · subst hk
      simp [addToGroup]
    · simp only [addToGroup, if_neg hk, List.map_cons, ih]
      have hne : ¬ (k = k1) := fun h => hk h.symm
      by_cases hmem : k ∈ rest.map Prod.fst
      · simp [hmem, hne]
      · simp [hmem, hne]

/-- Inserting into the `device_types` dict appends to the inserted key
and leaves every other key's members unchanged. -/
theorem getGroup_addToGroup (g : Groups) (k : Json) (v : List (String × Json)) (k' : Json) :
    getGroup (addToGroup g k v) k' =
      if k = k' then getGroup g k' ++ [v] else getGroup g k' := by
  induction g with
  | nil =>
    by_cases h : k = k'
    · subst h; simp [addToGroup, getGroup]
    · simp [addToGroup, getGroup, h]
  | cons hd rest ih =>
    obtain ⟨k1, ds⟩ := hd
    by_cases hk : k1 = k
    · subst hk
      by_cases h' : k1 = k'
      · subst h'; simp [addToGroup, getGroup]
      · simp [addToGroup, getGroup, h']
    · by_cases h' : k1 = k'
      · subst h'
        have : ¬ (k = k1) := fun h => hk h.symm
        simp [addToGroup, getGroup, hk, this]
      · simp [addToGroup, getGroup, hk, h', ih]

/-- After the grouping loop, the members filed under any key `k` are
the prior members followed by exactly the mapping elements of the
collection whose type key is `k`, in original order. -/
theorem scanDevices_getGroup (devices : List Json) :
    ∀ (gs : Groups) (ws : List Json) (k : Json),
      getGroup (scanDevices devices gs ws).1 k = getGroup gs k ++ specMembersOfType devices k := by
  induction devices with
  | nil => intro gs ws k; simp [scanDevices, specMembersOfType]
  | cons d rest ih =>
    intro gs ws k
    match d with
    | .obj kvs =>
      rw [show scanDevices (Json.obj kvs :: rest) gs ws
            = scanDevices rest (addToGroup gs (typeKey kvs) kvs) ws from rfl]
      rw [ih]
      rw [getGroup_addToGroup]
      by_cases h : typeKey kvs = k
      · simp [specMembersOfType, h, List.append_assoc]
      · simp [specMembersOfType, h]
    | .null => simp [scanDevices, specMembersOfType, ih]
    | .bool b => simp [scanDevices, specMembersOfType, ih]
    | .num n => simp [scanDevices, specMembersOfType, ih]
    | .str s => simp [scanDevices, specMembersOfType, ih]
    | .arr xs => simp [scanDevices, specMembersOfType, ih]

/-- The grouping loop warns about exactly the non-mapping elements, in
their original order. -/
theorem scanDevices_warned (devices : List Json) :
    ∀ (gs : Groups) (ws : List Json),
      (scanDevices devices gs ws).2 = ws ++ devices.filter (fun d => !d.isObj) := by
  induction devices with
  | nil => intro gs ws; simp [scanDevices]
  | cons d rest ih =>
    intro gs ws
    match d with
    | .obj kvs => simp [scanDevices, Json.isObj, ih]
    | .null => simp [scanDevices, Json.isObj, ih]
    | .bool b => simp [scanDevices, Json.isObj, ih]
    | .num n => simp [scanDevices, Json.isObj, ih]
    | .str s => simp [scanDevices, Json.isObj, ih]
    | .arr xs => simp [scanDevices, Json.isObj, ih]

/-- The group keys produced by the grouping loop are the type keys of
the mapping elements in first-seen order. -/
theorem scanDevices_keys (devices : List Json) :
    ∀ (gs : Groups) (ws : List Json),
      (scanDevices devices gs ws).1.map Prod.fst = specKeysAfter (gs.map Prod.fst) devices := by
  induction devices with
  | nil => intro gs ws; simp [scanDevices, specKeysAfter]
  | cons d rest ih =>
    intro gs ws
    match d with
    | .obj kvs =>
      rw [show scanDevices (Json.obj kvs :: rest) gs ws
            = scanDevices rest (addToGroup gs (typeKey kvs) kvs) ws from rfl]
      rw [ih, keys_addToGroup]
      rfl
    | .null => simp [scanDevices, specKeysAfter, ih]
    | .bool b => simp [scanDevices, specKeysAfter, ih]
    | .num n => simp [scanDevices, specKeysAfter, ih]
    | .str s => simp [scanDevices, specKeysAfter, ih]
    | .arr xs => simp [scanDevices, specKeysAfter, ih]

/-- Inserting one record grows the total number of grouped records by
one. -/
theorem flatten_addToGroup (g : Groups) (k : Json) (v : List (String × Json)) :
    ((addToGroup g k v).map Prod.snd).flatten.length
      = (g.map Prod.snd).flatten.length + 1 := by
  induction g with
  | nil => simp [addToGroup]
  | cons hd rest ih =>
    obtain ⟨k1, ds⟩ := hd
    by_cases hk : k1 = k
    · subst hk; simp [addToGroup]; omega
    · simp [addToGroup, hk, ih]; omega

/-- The total number of grouped records equals the number of mapping
elements of the collection. -/
theorem scanDevices_total (devices : List Json) :
    ∀ (gs : Groups) (ws : List Json),
      ((scanDevices devices gs ws).1.map Prod.snd).flatten.length
        = (gs.map Prod.snd).flatten.length + (devices.filter (fun d => d.isObj)).length := by
  induction devices with
  | nil => intro gs ws; simp [scanDevices]
  | cons d rest ih =>
    intro gs ws
    match d with
    | .obj kvs =>
      rw [show scanDevices (Json.obj kvs :: rest) gs ws
            = scanDevices rest (addToGroup gs (typeKey kvs) kvs) ws from rfl]
      rw [ih, flatten_addToGroup]
      simp [Json.isObj]
      omega
    | .null => simp [scanDevices, Json.isObj, ih]
    | .bool b => simp [scanDevices, Json.isObj, ih]
    | .num n => simp [scanDevices, Json.isObj, ih]
    | .str s => simp [scanDevices, Json.isObj, ih]
    | .arr xs => simp [scanDevices, Json.isObj, ih]

/-- C1: for every paginated sequence of K pages (K at least 1) in which
each page's `Link` header resolves, through the code's own header
inspection, to the next page's URL and the final page's header resolves
to no next URL, `get_all_devices` issues exactly K GET requests and
returns the concatenation of all pages' records in page order, item
order preserved within each page; in particular a single response that
is a bare sequence of records with no `Link` header yields exactly
those records, in order, after one request. -/
theorem c1_pagination_chain :
    (∀ (server : String → Response) (org_id : String) (pages : List (List Json)),
      Chain server (orgDevicesUrl org_id) pages →
      ∀ (fuel : Nat), pages.length < fuel →
        get_all_devices server org_id fuel =
          FetchResult.ok pages.flatten pages.length)
    ∧ (∀ (server : String → Response) (org_id : String) (recs : List Json) (fuel : Nat),
        1 < fuel →
        (server (orgDevicesUrl org_id)).ok = true →
        (server (orgDevicesUrl org_id)).body = Json.arr recs →
        (server (orgDevicesUrl org_id)).link = "" →
        get_all_devices server org_id fuel = FetchResult.ok recs 1) := by
  constructor
  · intro server org pages h fuel hf
    simpa [get_all_devices] using chain_loop_ok server h fuel hf [] 0
  · intro server org recs fuel hf hok hbody hlink
    have hch : Chain server (orgDevicesUrl org) [recs] := by
      refine Chain.last _ _ (orgDevicesUrl_ne org) hok ?_ ?_
      · rw [hbody]; rfl
      · rw [hlink]; decide
    have h2 := chain_loop_ok server hch fuel (by simpa using hf) [] 0
    simpa [get_all_devices] using h2

/-- Witness for C1: the concrete two-page server yields its three
records after two requests, and the concrete one-page server yields its
record after one request. -/
theorem c1_pagination_chain_witness :
    get_all_devices twoPageServer "o" 3
        = FetchResult.ok [Json.num 1, Json.num 2, Json.num 3] 2
    ∧ get_all_devices onePageServer "o" 2 = FetchResult.ok [Json.num 9] 1 := by
  constructor
  · have h := c1_pagination_chain.1 twoPageServer "o" _ twoPageChain 3 (by decide)
    simpa using h
  · exact c1_pagination_chain.2 onePageServer "o" [Json.num 9] 2 (by decide) rfl rfl rfl

/-- C2 counterexample: on a response whose `Link` header holds the
`rel="next"` marker but no URL delimited by angle brackets, the routine
does not terminate normally with the devices accumulated so far — it
raises an uncaught `IndexError` at `link.split('<')[1]`. -/
theorem c2_malformed_link_raises_cex :
    get_all_devices noAngleServer "o" 9 = FetchResult.raised 1
    ∧ get_all_devices noAngleServer "o" 9 ≠ FetchResult.ok [] 1 := by
  constructor
  · decide
  · decide

/-- C2 (amended): for every response whose `Link` header does not
contain the `rel="next"` marker at all — in particular when the header
is absent, modelled as the empty string — the routine sets the current
URL to empty, terminates the pagination loop normally, and returns the
devices accumulated so far. (When the marker is present but the
matching entry has no `<`-delimited URL, an `IndexError` is raised
instead, per the counterexample.) -/
theorem c2_absent_link_terminates (server : String → Response) (url : String)
    (devices : List Json) (reqs fuel : Nat) (recs : List Json)
    (hne : url ≠ "") (hok : (server url).ok = true)
    (hbody : processBody (server url).body = .extended recs)
    (hlink : strContains (server url).link relNext = false) :
    get_all_devices_loop server (fuel + 1) url devices reqs
      = FetchResult.ok (devices ++ recs) (reqs + 1) := by
  apply loop_ext_noNext server fuel url devices reqs recs hne hok hbody
  simp [linkStep, hlink]

/-- Witness for C2 (amended) at the concrete one-page server, whose
`Link` header is absent. -/
theorem c2_absent_link_terminates_witness :
    get_all_devices_loop onePageServer 1 "u" [] 0 = FetchResult.ok [Json.num 9] 1 :=
  c2_absent_link_terminates onePageServer "u" [] 0 0 [Json.num 9] (by decide) rfl rfl rfl

/-- C3 counterexample: with a first page whose body is a bare number
and whose `Link` header points at a second page holding one record, the
routine returns an empty collection after a single request — it does
not skip the page and continue to the next one. -/
theorem c3_unexpected_shape_cex :
    get_all_devices badPageServer "o" 9 = FetchResult.ok [] 1
    ∧ get_all_devices badPageServer "o" 9 ≠ FetchResult.ok [Json.num 7] 2 := by
  constructor
  · decide
  · decide

/-- C3 (amended): when a page's parsed JSON body is neither a sequence
nor a mapping, the routine logs the unexpected-format message and
breaks out of the pagination loop: the devices accumulated so far are
returned after that one request, regardless of the `Link` header, and
no further page is processed. -/
theorem c3_unexpected_shape_stops (server : String → Response) (url : String)
    (devices : List Json) (reqs fuel : Nat)
    (hne : url ≠ "") (hok : (server url).ok = true)
    (harr : (server url).body.isArr = false) (hobj : (server url).body.isObj = false) :
    get_all_devices_loop server (fuel + 1) url devices reqs
      = FetchResult.ok devices (reqs + 1) := by
  apply loop_break server fuel url devices reqs hne hok
  cases hb : (server url).body with
  | null => rfl
  | bool b => rfl
  | num n => rfl
  | str s => rfl
  | arr xs => rw [hb] at harr; simp [Json.isArr] at harr
  | obj kvs => rw [hb] at hobj; simp [Json.isObj] at hobj

/-- Witness for C3 (amended) at the concrete bad-page server. -/
theorem c3_unexpected_shape_stops_witness :
    get_all_devices_loop badPageServer 8 (orgDevicesUrl "o") [] 0 = FetchResult.ok [] 1 :=
  c3_unexpected_shape_stops badPageServer (orgDevicesUrl "o") [] 0 7
    (orgDevicesUrl_ne "o") (by decide) (by decide) (by decide)

/-- C4: a mapping page body with key `data` contributes exactly the
elements of the value at `data`; otherwise with key `results`, exactly
those of the value at `results`; with neither key, the whole mapping
becomes a single record; and a body that is neither a sequence nor a
mapping stops pagination immediately, contributes no records, and the
devices accumulated so far are returned. -/
theorem c4_mapping_shapes :
    (∀ (kvs : List (String × Json)) (xs : List Json),
       Json.lookup kvs "data" = some (Json.arr xs) →
       processBody (Json.obj kvs) = BodyResult.extended xs)
    ∧ (∀ (kvs : List (String × Json)) (xs : List Json),
       Json.lookup kvs "data" = none →
       Json.lookup kvs "results" = some (Json.arr xs) →
       processBody (Json.obj kvs) = BodyResult.extended xs)
    ∧ (∀ (kvs : List (String × Json)),
       Json.lookup kvs "data" = none →
       Json.lookup kvs "results" = none →
       processBody (Json.obj kvs) = BodyResult.extended [Json.obj kvs])
    ∧ (∀ (server : String → Response) (url : String) (devices : List Json) (reqs fuel : Nat),
       url ≠ "" → (server url).ok = true →
       (server url).body.isArr = false → (server url).body.isObj = false →
       get_all_devices_loop server (fuel + 1) url devices reqs
         = FetchResult.ok devices (reqs + 1)) := by
  refine ⟨?_, ?_, ?_, ?_⟩
  · intro kvs xs h; simp [processBody, h, pyElems]
  · intro kvs xs h1 h2; simp [processBody, h1, h2, pyElems]
  · intro kvs h1 h2; simp [processBody, h1, h2]
  · intro server url devices reqs fuel hne hok harr hobj
    apply loop_break server fuel url devices reqs hne hok
    cases hb : (server url).body with
    | null => rfl
    | bool b => rfl
    | num n => rfl
    | str s => rfl
    | arr xs => rw [hb] at harr; simp [Json.isArr] at harr
    | obj kvs => rw [hb] at hobj; simp [Json.isObj] at hobj

/-- Witness for C4 at concrete mapping bodies of each shape and at the
concrete bad-page server. -/
theorem c4_mapping_shapes_witness :
    processBody (Json.obj [("data", Json.arr [Json.num 1])]) = BodyResult.extended [Json.num 1]
    ∧ processBody (Json.obj [("results", Json.arr [Json.num 2])]) = BodyResult.extended [Json.num 2]
    ∧ processBody (Json.obj [("x", Json.null)]) = BodyResult.extended [Json.obj [("x", Json.null)]]
    ∧ get_all_devices_loop badPageServer 1 (orgDevicesUrl "o") [] 0 = FetchResult.ok [] 1 := by
  refine ⟨?_, ?_, ?_, ?_⟩
  · exact c4_mapping_shapes.1 _ _ (by decide)
  · exact c4_mapping_shapes.2.1 _ _ (by decide) (by decide)
  · exact c4_mapping_shapes.2.2.1 _ (by decide) (by decide)
  · exact c4_mapping_shapes.2.2.2 badPageServer (orgDevicesUrl "o") [] 0 0
      (orgDevicesUrl_ne "o") (by decide) (by decide) (by decide)

/-- C5: at any point in the pagination loop, a failed request (non-2xx
status or network-level failure, both surfacing as a caught
`RequestException`) terminates the process with exit status 1 after
that single request — no further request is issued and no partial
collection is returned. -/
theorem c5_request_failure_exits (server : String → Response) (url : String)
    (devices : List Json) (reqs fuel : Nat)
    (hne : url ≠ "") (hfail : (server url).ok = false) :
    get_all_devices_loop server (fuel + 1) url devices reqs = FetchResult.exit1 (reqs + 1)
    ∧ ∀ (ds : List Json) (n : Nat),
        get_all_devices_loop server (fuel + 1) url devices reqs ≠ FetchResult.ok ds n := by
  have h := loop_fail server fuel url devices reqs hne hfail
  refine ⟨h, ?_⟩
  intro ds n hc
  rw [h] at hc
  exact FetchResult.noConfusion hc

/-- Witness for C5 at the concrete always-failing server. -/
theorem c5_request_failure_exits_witness :
    get_all_devices_loop failServer 1 (orgDevicesUrl "o") [] 0 = FetchResult.exit1 1 :=
  (c5_request_failure_exits failServer (orgDevicesUrl "o") [] 0 0 (orgDevicesUrl_ne "o") rfl).1

/-- C6: the fetch is a single pass with no duplicate-page detection: it
terminates (never exhausts any sufficient fuel bound) for every finite
chain of `rel="next"` links ending in a page without one, while against
the concrete cyclic server — whose `Link` header always points back to
the already-visited URL `"a"` — every fuel bound is exhausted, i.e. the
Python loop never terminates. -/
theorem c6_no_cycle_guard :
    (∀ (server : String → Response) (org_id : String) (pages : List (List Json)),
      Chain server (orgDevicesUrl org_id) pages →
      ∀ (fuel : Nat), pages.length < fuel →
        get_all_devices server org_id fuel ≠ FetchResult.diverge)
    ∧ (∀ (fuel : Nat) (devices : List Json) (reqs : Nat),
        get_all_devices_loop cycServer fuel "a" devices reqs = FetchResult.diverge)
    ∧ (∀ (fuel : Nat), get_all_devices cycServer "o" fuel = FetchResult.diverge) := by
  refine ⟨?_, ?_, ?_⟩
  · intro server org pages h fuel hf hdiv
    rw [show get_all_devices server org fuel
          = get_all_devices_loop server fuel (orgDevicesUrl org) [] 0 from rfl] at hdiv
    rw [chain_loop_ok server h fuel hf [] 0] at hdiv
    exact FetchResult.noConfusion hdiv
  · intro fuel devices reqs
    exact cycServer_diverges fuel "a" (by decide) devices reqs
  · intro fuel
    exact cycServer_diverges fuel (orgDevicesUrl "o") (orgDevicesUrl_ne "o") [] 0

/-- Witness for C6: the two-page server terminates within fuel 3, and
the cyclic server exhausts fuel 5. -/
theorem c6_no_cycle_guard_witness :
    get_all_devices twoPageServer "o" 3 ≠ FetchResult.diverge
    ∧ get_all_devices_loop cycServer 5 "a" [] 0 = FetchResult.diverge := by
  constructor
  · exact c6_no_cycle_guard.1 twoPageServer "o" _ twoPageChain 3 (by decide)
  · exact c6_no_cycle_guard.2.1 5 [] 0

/-- C7: `display_devices` presents type groups in first-seen insertion
order — the group keys are exactly the distinct type keys of the
mapping elements in the order first encountered scanning front-to-back,
each group holding exactly the records of that type in original
relative order — and each rendered group header carries the upper-cased
type name together with the group's member count; in particular the
collection with types `ap`, `ap`, `switch` renders as `AP` (count 2)
then `SWITCH` (count 1). -/
theorem c7_group_order_and_headers :
    (∀ (devices : List Json),
      (display_devices devices).groups.map Prod.fst = specFirstSeenTypes devices)
    ∧ (∀ (devices : List Json) (k : Json),
      getGroup (display_devices devices).groups k = specMembersOfType devices k)
    ∧ (∀ (devices : List Json),
      (display_devices devices).rendered =
        (display_devices devices).groups.map fun g => (pyUpper g.1, g.2.length, g.2.map deviceLine))
    ∧ (display_devices apSwitchDevices).rendered.map (fun r => (r.1, r.2.1))
        = [(some "AP", 2), (some "SWITCH", 1)] := by
  refine ⟨?_, ?_, ?_, ?_⟩
  · intro devices
    cases devices with
    | nil => rfl
    | cons d rest =>
      show (scanDevices (d :: rest) [] []).1.map Prod.fst = _
      rw [scanDevices_keys]
      rfl
  · intro devices k
    cases devices with
    | nil => rfl
    | cons d rest =>
      show getGroup (scanDevices (d :: rest) [] []).1 k = _
      rw [scanDevices_getGroup]
      rfl
  · intro devices
    cases devices with
    | nil => rfl
    | cons d rest => rfl
  · decide

/-- C8: a collection containing at least one non-mapping element still
displays: every non-mapping element is excluded from every type group
(each group holds exactly the mapping elements of its type), one
warning is recorded per excluded element in order, and all mapping
elements are displayed (the grouped records number exactly the mapping
elements). -/
theorem c8_non_mapping_excluded (devices : List Json)
    (h : ∃ d ∈ devices, d.isObj = false) :
    (display_devices devices).warned = devices.filter (fun d => !d.isObj)
    ∧ (∀ (k : Json), getGroup (display_devices devices).groups k = specMembersOfType devices k)
    ∧ ((display_devices devices).groups.map Prod.snd).flatten.length
        = (devices.filter (fun d => d.isObj)).length := by
  cases devices with
  | nil => simp at h
  | cons d rest =>
    refine ⟨?_, ?_, ?_⟩
    · show (scanDevices (d :: rest) [] []).2 = _
      rw [scanDevices_warned]
      rfl
    · intro k
      show getGroup (scanDevices (d :: rest) [] []).1 k = _
      rw [scanDevices_getGroup]
      rfl
    · show ((scanDevices (d :: rest) [] []).1.map Prod.snd).flatten.length = _
      rw [scanDevices_total]
      simp

/-- Witness for C8 at the concrete mixed collection of one mapping and
one stray string. -/
theorem c8_non_mapping_excluded_witness :
    (display_devices mixedDevices).warned = [Json.str "boom"]
    ∧ getGroup (display_devices mixedDevices).groups (Json.str "ap") = [[("type", Json.str "ap")]]
    ∧ ((display_devices mixedDevices).groups.map Prod.snd).flatten.length = 1 := by
  obtain ⟨h1, h2, h3⟩ := c8_non_mapping_excluded mixedDevices (by decide)
  refine ⟨?_, ?_, ?_⟩
  · rw [h1]; decide
  · rw [h2 (Json.str "ap")]; decide
  · rw [h3]; decide

/-- C9: a record missing `type` is grouped under `"Unknown"`, a record
missing `name` renders `"Unnamed"`, and missing `model`, `mac`,
`serial`, `status` or `site_id` each render `"N/A"`; a record carrying
all fields is grouped and rendered with its own values unchanged. -/
theorem c9_field_defaults :
    (∀ (kvs : List (String × Json)),
       Json.lookup kvs "type" = none → typeKey kvs = Json.str "Unknown")
    ∧ (∀ (kvs : List (String × Json)),
       Json.lookup kvs "name" = none → (deviceLine kvs).name = Json.str "Unnamed")
    ∧ (∀ (kvs : List (String × Json)),
       Json.lookup kvs "model" = none → (deviceLine kvs).model = Json.str "N/A")
    ∧ (∀ (kvs : List (String × Json)),
       Json.lookup kvs "mac" = none → (deviceLine kvs).mac = Json.str "N/A")
    ∧ (∀ (kvs : List (String × Json)),
       Json.lookup kvs "serial" = none → (deviceLine kvs).serial = Json.str "N/A")
    ∧ (∀ (kvs : List (String × Json)),
       Json.lookup kvs "status" = none → (deviceLine kvs).status = Json.str "N/A")
    ∧ (∀ (kvs : List (String × Json)),
       Json.lookup kvs "site_id" = none → (deviceLine kvs).site_id = Json.str "N/A")
    ∧ (∀ (kvs : List (String × Json)) (tv n m mc sr st si : Json),
       Json.lookup kvs "type" = some tv →
       Json.lookup kvs "name" = some n →
       Json.lookup kvs "model" = some m →
       Json.lookup kvs "mac" = some mc →
       Json.lookup kvs "serial" = some sr →
       Json.lookup kvs "status" = some st →
       Json.lookup kvs "site_id" = some si →
       typeKey kvs = tv ∧ deviceLine kvs = ⟨n, m, mc, sr, st, si⟩) := by
  refine ⟨?_, ?_, ?_, ?_, ?_, ?_, ?_, ?_⟩
  · intro kvs h; simp [typeKey, h]
  · intro kvs h; simp [deviceLine, h]
  · intro kvs h; simp [deviceLine, h]
  · intro kvs h; simp [deviceLine, h]
  · intro kvs h; simp [deviceLine, h]
  · intro kvs h; simp [deviceLine, h]
  · intro kvs h; simp [deviceLine, h]
  · intro kvs tv n m mc sr st si h1 h2 h3 h4 h5 h6 h7
    exact ⟨by simp [typeKey, h1], by simp [deviceLine, h2, h3, h4, h5, h6, h7]⟩

/-- Witness for C9 at the empty record and at a record carrying every
field. -/
theorem c9_field_defaults_witness :
    typeKey [] = Json.str "Unknown"
    ∧ (deviceLine []).name = Json.str "Unnamed"
    ∧ (deviceLine []).model = Json.str "N/A"
    ∧ typeKey fullRecord = Json.str "ap"
    ∧ deviceLine fullRecord = ⟨Json.str "dev1", Json.str "m", Json.str "00:11",
        Json.str "s9", Json.str "up", Json.str "site7"⟩ := by
  have h := c9_field_defaults.2.2.2.2.2.2.2 fullRecord
    (Json.str "ap") (Json.str "dev1") (Json.str "m") (Json.str "00:11")
    (Json.str "s9") (Json.str "up") (Json.str "site7")
    (by decide) (by decide) (by decide) (by decide) (by decide) (by decide) (by decide)
  exact ⟨c9_field_defaults.1 [] rfl, c9_field_defaults.2.1 [] rfl,
    c9_field_defaults.2.2.1 [] rfl, h.1, h.2⟩

/-- C10: no type check precedes `devices.extend` of the `data` (or,
when `data` is absent, `results`) value: any iterable value has each of
its elements appended individually — in particular a string value
contributes one single-character record per character — rather than
being skipped or reported as malformed. -/
theorem c10_extend_iterables :
    (∀ (kvs : List (String × Json)) (v : Json) (elems : List Json),
       Json.lookup kvs "data" = some v → pyElems v = some elems →
       processBody (Json.obj kvs) = BodyResult.extended elems)
    ∧ (∀ (kvs : List (String × Json)) (s : String),
       Json.lookup kvs "data" = some (Json.str s) →
       processBody (Json.obj kvs)
         = BodyResult.extended (s.data.map fun c => Json.str (String.mk [c])))
    ∧ (∀ (kvs : List (String × Json)) (s : String),
       Json.lookup kvs "data" = none →
       Json.lookup kvs "results" = some (Json.str s) →
       processBody (Json.obj kvs)
         = BodyResult.extended (s.data.map fun c => Json.str (String.mk [c])))
    ∧ processBody (Json.obj [("data", Json.str "ab")])
        = BodyResult.extended [Json.str "a", Json.str "b"] := by
  refine ⟨?_, ?_, ?_, by decide⟩
  · intro kvs v elems h1 h2; simp [processBody, h1, h2]
  · intro kvs s h; simp [processBody, h, pyElems]
  · intro kvs s h1 h2; simp [processBody, h1, h2, pyElems]

/-- Witness for C10 at concrete string-valued `data` and `results`
keys. -/
theorem c10_extend_iterables_witness :
    processBody (Json.obj [("data", Json.str "ab")])
      = BodyResult.extended [Json.str "a", Json.str "b"]
    ∧ processBody (Json.obj [("results", Json.str "x")])
      = BodyResult.extended [Json.str "x"] := by
  constructor
  · exact c10_extend_iterables.2.1 [("data", Json.str "ab")] "ab" rfl
  · exact c10_extend_iterables.2.2.1 [("results", Json.str "x")] "x" rfl rfl
